import Mathlib

/-!
Verification of the eye-contact / engagement-scoring core of the `speak`
repository.  Each Python function relevant to the frozen claims is shallowly
embedded as an executable Lean definition over `ℚ`, `ℕ`, `Bool`, `Option` and
`List`; the per-frame mutable state of the trackers becomes explicit state
passing via step functions folded over input lists.
-/

namespace Speak

/-! ## Engagement score (src/backend/speech_analyzer.py, calculate_engagement_score) -/

/-- Embedding of `calculate_engagement_score(eye_contact_ratio, speech_accuracy,
speaking_rate, voice_factor)` from `speech_analyzer.py`:
`rate_score = max(0, min(100, 100 - abs(speaking_rate - 135) * 2))`,
`engagement = eye*0.35*100 + speech*0.35 + rate_score*0.15 + voice*0.15*100`,
returned as `min(100, max(0, engagement))`. -/
def calculate_engagement_score (eye_contact speech_accuracy speaking_rate voice_factor : ℚ) : ℚ :=
  let eye_weight : ℚ := 35/100
  let speech_weight : ℚ := 35/100
  let rate_weight : ℚ := 15/100
  let voice_weight : ℚ := 15/100
  let rate_score : ℚ := max 0 (min 100 (100 - |speaking_rate - 135| * 2))
  let engagement : ℚ := eye_contact * eye_weight * 100 + speech_accuracy * speech_weight +
    rate_score * rate_weight + voice_factor * voice_weight * 100
  min 100 (max 0 engagement)

/-- Clamp of `x` into `[lo, hi]`, as used by the reference formula of the spec. -/
def clamp (x lo hi : ℚ) : ℚ := max lo (min hi x)

/-- Reference rate score, written from the spec text:
`rate_score = clamp(100 - 2*|wpm - 135|, 0, 100)`. -/
def spec_rate_score (wpm : ℚ) : ℚ := clamp (100 - 2 * |wpm - 135|) 0 100

/-- Reference engagement formula, written from the spec text:
`clamp(0.35*eye*100 + 0.35*speech + 0.15*rate_score + 0.15*voice*100, 0, 100)`. -/
def spec_score (eye_contact speech_accuracy wpm voice_factor : ℚ) : ℚ :=
  clamp (35/100 * eye_contact * 100 + 35/100 * speech_accuracy +
    15/100 * spec_rate_score wpm + 15/100 * voice_factor * 100) 0 100

lemma min_max_comm (x : ℚ) : min 100 (max 0 x) = max 0 (min 100 x) := by
  rw [max_min_distrib_left]
  norm_num

/-- C1: on the declared domain (`eye_contact ∈ [0,1]`, `speech_accuracy ∈ [0,100]`,
`speaking_rate ≥ 0`, `voice_factor ∈ [0,1]`) the engagement-score function equals
the reference clamped weighted-sum formula of the spec; the perfect input
`(1, 100, 135, 1)` scores exactly `100`, and every score lies in `[0,100]`. -/
theorem engagement_score_spec (e s w v : ℚ)
    (_he : 0 ≤ e ∧ e ≤ 1) (_hs : 0 ≤ s ∧ s ≤ 100) (_hw : 0 ≤ w) (_hv : 0 ≤ v ∧ v ≤ 1) :
    calculate_engagement_score e s w v = spec_score e s w v ∧
    calculate_engagement_score 1 100 135 1 = 100 ∧
    0 ≤ calculate_engagement_score e s w v ∧ calculate_engagement_score e s w v ≤ 100 := by
  refine ⟨?_, by norm_num [calculate_engagement_score], ?_, ?_⟩
  · unfold calculate_engagement_score spec_score spec_rate_score clamp
    rw [min_max_comm]
    ring_nf
  · unfold calculate_engagement_score
    exact le_min (by norm_num) (le_max_left 0 _)
  · unfold calculate_engagement_score
    exact min_le_left _ _

/-- Witness for C1 at the concrete input `(1/2, 50, 135, 1/2)`. -/
theorem engagement_score_spec_witness :
    calculate_engagement_score (1/2) 50 135 (1/2) = spec_score (1/2) 50 135 (1/2) ∧
    calculate_engagement_score 1 100 135 1 = 100 ∧
    0 ≤ calculate_engagement_score (1/2) 50 135 (1/2) ∧
    calculate_engagement_score (1/2) 50 135 (1/2) ≤ 100 :=
  engagement_score_spec (1/2) 50 135 (1/2)
    (by norm_num) (by norm_num) (by norm_num) (by norm_num)

/-! ## Session aggregator (src/backend/advanced_eye_tracker.py, process_frame) -/

/-- The counter state mutated by `AdvancedEyeTracker.process_frame`. -/
structure TrackerState where
  total_frames : ℕ
  eye_contact_frames : ℕ
  eye_contact_percentage : ℚ
deriving DecidableEq

/-- The tracker's initial counter state, from `AdvancedEyeTracker.__init__`. -/
def initTracker : TrackerState := ⟨0, 0, 0⟩

/-- One submitted frame, abstracted to the booleans `process_frame` branches on:
whether MediaPipe detected a face, and (when it did) whether
`detect_eye_contact_simple` classified eye contact on that frame. -/
structure FrameInput where
  faceDetected : Bool
  eyeContact : Bool

/-- Counter/percentage update of `AdvancedEyeTracker.process_frame`: only inside
the `results.multi_face_landmarks` branch are `total_frames` (always) and
`eye_contact_frames` (when contact) incremented and the percentage recomputed;
on the no-face branch (and the decode-failure/exception paths) none of the
counters change. -/
def process_frame (s : TrackerState) (f : FrameInput) : TrackerState :=
  if f.faceDetected then
    let total := s.total_frames + 1
    let ec := s.eye_contact_frames + (if f.eyeContact then 1 else 0)
    let pct := if 0 < total then (ec : ℚ) / (total : ℚ) * 100 else s.eye_contact_percentage
    ⟨total, ec, pct⟩
  else s

/-- Folding a whole session of submitted frames through `process_frame`. -/
def runFrames (fs : List FrameInput) : TrackerState := fs.foldl process_frame initTracker

/-- C2 counterexample: a submitted frame with no detected face does not
increment `total_frames` (it stays `0`, where the claim predicts `1`). -/
theorem total_frames_not_unconditional :
    (process_frame initTracker ⟨false, false⟩).total_frames ≠ initTracker.total_frames + 1 := by
  decide

/-- C2 (amended): `process_frame` increments `total_frames` exactly on frames
where a face was detected — a no-face frame leaves it unchanged — and
increments `eye_contact_frames` exactly when additionally the frame was
classified as eye contact. -/
theorem total_frames_face_only (s : TrackerState) (f : FrameInput) :
    (process_frame s f).total_frames =
      (if f.faceDetected then s.total_frames + 1 else s.total_frames) ∧
    (process_frame s f).eye_contact_frames =
      (if f.faceDetected && f.eyeContact then s.eye_contact_frames + 1 else s.eye_contact_frames) := by
  cases hf : f.faceDetected <;> cases he : f.eyeContact <;>
    simp [process_frame, hf, he]

/-- Invariant tying the stored percentage to the counters. -/
def TrackerInv (s : TrackerState) : Prop :=
  s.eye_contact_frames ≤ s.total_frames ∧
  s.eye_contact_percentage =
    (if s.total_frames = 0 then 0
     else (s.eye_contact_frames : ℚ) / (s.total_frames : ℚ) * 100)

lemma trackerInv_init : TrackerInv initTracker := by
  constructor <;> simp [initTracker]

lemma trackerInv_step (s : TrackerState) (f : FrameInput) (h : TrackerInv s) :
    TrackerInv (process_frame s f) := by
  obtain ⟨h1, h2⟩ := h
  by_cases hf : f.faceDetected = true
  · refine ⟨?_, ?_⟩ <;> simp [process_frame, hf]
    · split <;> omega
  · have : process_frame s f = s := by simp [process_frame, hf]
    rw [this]; exact ⟨h1, h2⟩

lemma trackerInv_run (fs : List FrameInput) : TrackerInv (runFrames fs) := by
  have key : ∀ (l : List FrameInput) (s : TrackerState), TrackerInv s →
      TrackerInv (l.foldl process_frame s) := by
    intro l
    induction l with
    | nil => intro s hs; exact hs
    | cons a t ih => intro s hs; exact ih _ (trackerInv_step s a hs)
  exact key fs initTracker trackerInv_init

/-- C5: after any sequence of recorded frames, `eye_contact_frames ≤ total_frames`,
the stored percentage equals `eye_contact_frames / total_frames * 100` (and `0`
when `total_frames = 0`, with no division fault), and the percentage lies in
`[0, 100]`. -/
theorem percentage_invariant (fs : List FrameInput) :
    (runFrames fs).eye_contact_frames ≤ (runFrames fs).total_frames ∧
    (runFrames fs).eye_contact_percentage =
      (if (runFrames fs).total_frames = 0 then 0
       else ((runFrames fs).eye_contact_frames : ℚ) / ((runFrames fs).total_frames : ℚ) * 100) ∧
    0 ≤ (runFrames fs).eye_contact_percentage ∧
    (runFrames fs).eye_contact_percentage ≤ 100 := by
  obtain ⟨h1, h2⟩ := trackerInv_run fs
  refine ⟨h1, h2, ?_, ?_⟩
  · rw [h2]
    split
    · exact le_refl 0
    · positivity
  · rw [h2]
    split
    · norm_num
    · rename_i htot
      have hpos : (0 : ℚ) < ((runFrames fs).total_frames : ℚ) := by
        exact_mod_cast Nat.pos_of_ne_zero htot
      have hle : ((runFrames fs).eye_contact_frames : ℚ) ≤ ((runFrames fs).total_frames : ℚ) := by
        exact_mod_cast h1
      calc ((runFrames fs).eye_contact_frames : ℚ) / ((runFrames fs).total_frames : ℚ) * 100
          ≤ 1 * 100 := by
            apply mul_le_mul_of_nonneg_right _ (by norm_num)
            exact (div_le_one hpos).mpr hle
        _ = 100 := by norm_num

/-! ## Blink counting (src/backend/eye_contact_monitor.py, main loop) -/

/-- `BLINK_THRESHOLD = 0.51` from `eye_contact_monitor.py`. -/
def BLINK_THRESHOLD : ℚ := 51/100

/-- `EYE_AR_CONSEC_FRAMES = 2` from `eye_contact_monitor.py`. -/
def EYE_AR_CONSEC_FRAMES : ℕ := 2

/-- The blink-counting state: `EYES_BLINK_FRAME_COUNTER` and `TOTAL_BLINKS`. -/
structure BlinkState where
  counter : ℕ
  total : ℕ
deriving DecidableEq

/-- One frame of the blink-detection logic in the monitor's main loop:
if the eyes-aspect ratio is `≤ BLINK_THRESHOLD` the consecutive-frame counter
is incremented; otherwise a blink is counted when the counter is strictly
greater than `EYE_AR_CONSEC_FRAMES`, and the counter resets to `0`. -/
def blinkStep (s : BlinkState) (r : ℚ) : BlinkState :=
  if r ≤ BLINK_THRESHOLD then ⟨s.counter + 1, s.total⟩
  else ⟨0, if EYE_AR_CONSEC_FRAMES < s.counter then s.total + 1 else s.total⟩

/-- Folding a ratio sequence through `blinkStep` from the initial zero state. -/
def runBlinks (rs : List ℚ) : BlinkState := rs.foldl blinkStep ⟨0, 0⟩

/-- C3 counterexample: a run of exactly `2` frames at ratio `1/2 ≤ 0.51`
followed by a frame above threshold counts `0` blinks, where the claim
(run length at least 2) predicts exactly `1`. -/
theorem blink_run_two_counts_zero :
    (runBlinks [1/2, 1/2, 1]).total = 0 := by
  norm_num [runBlinks, blinkStep, BLINK_THRESHOLD, EYE_AR_CONSEC_FRAMES]

lemma blinkStep_low_run (run : List ℚ) (hrun : ∀ r ∈ run, r ≤ BLINK_THRESHOLD) :
    ∀ s : BlinkState, run.foldl blinkStep s = ⟨s.counter + run.length, s.total⟩ := by
  induction run with
  | nil => intro s; simp [List.foldl]
  | cons a t ih =>
    intro s
    have ha : a ≤ BLINK_THRESHOLD := hrun a (List.mem_cons_self a t)
    have ht : ∀ r ∈ t, r ≤ BLINK_THRESHOLD := fun r hr => hrun r (List.mem_cons_of_mem a hr)
    simp only [List.foldl_cons, blinkStep, if_pos ha]
    rw [ih ht ⟨s.counter + 1, s.total⟩]
    simp [List.length_cons]
    omega

/-- C3 (amended): starting with a zero consecutive-frame counter, a run of
`n` consecutive frames with ratio `≤ 0.51` followed by one frame above the
threshold increments the blink count by one exactly when `n > 2`
(strictly more than `EYE_AR_CONSEC_FRAMES = 2`) and by zero otherwise;
in particular a dip of exactly 3 frames then a rise counts exactly 1 blink,
and dips of 1 or 2 frames count 0. -/
theorem blink_counting (s : BlinkState) (run : List ℚ) (high : ℚ)
    (hzero : s.counter = 0)
    (hrun : ∀ r ∈ run, r ≤ BLINK_THRESHOLD) (hhigh : ¬ high ≤ BLINK_THRESHOLD) :
    (run ++ [high]).foldl blinkStep s =
      ⟨0, if 2 < run.length then s.total + 1 else s.total⟩ ∧
    (runBlinks [1/2, 1/2, 1/2, 1]).total = 1 ∧
    (runBlinks [1/2, 1]).total = 0 := by
  refine ⟨?_, ?_, ?_⟩
  · rw [List.foldl_append, blinkStep_low_run run hrun s, hzero]
    simp only [List.foldl_cons, List.foldl_nil, blinkStep, if_neg hhigh,
      EYE_AR_CONSEC_FRAMES, Nat.zero_add]
  · norm_num [runBlinks, blinkStep, BLINK_THRESHOLD, EYE_AR_CONSEC_FRAMES]
  · norm_num [runBlinks, blinkStep, BLINK_THRESHOLD, EYE_AR_CONSEC_FRAMES]

/-- Witness for C3: the theorem applied at the empty run followed by an
above-threshold frame, all hypotheses discharged concretely. -/
theorem blink_counting_witness :
    (runBlinks [1/2, 1/2, 1/2, 1]).total = 1 ∧ (runBlinks [1/2, 1]).total = 0 :=
  (blink_counting ⟨0, 0⟩ [] 1 rfl (by simp) (by norm_num [BLINK_THRESHOLD])).2

/-! ## AngleBuffer (src/backend/advanced_eye_tracker.py and eye_contact_monitor.py) -/

/-- The rolling angle buffer shared by both tracker variants: a configured
capacity and a Python list of pitch/yaw/roll triples. -/
structure AngleBuffer where
  size : ℕ
  buffer : List (ℚ × ℚ × ℚ)
deriving DecidableEq

/-- `AngleBuffer(size)` constructor: an empty buffer of the given capacity. -/
def AngleBuffer.init (size : ℕ) : AngleBuffer := ⟨size, []⟩

/-- `AngleBuffer.add`: append the triple, then `pop(0)` (drop the head, the
oldest entry) when the length exceeds the capacity. -/
def AngleBuffer.add (b : AngleBuffer) (angles : ℚ × ℚ × ℚ) : AngleBuffer :=
  if b.size < (b.buffer ++ [angles]).length then ⟨b.size, (b.buffer ++ [angles]).tail⟩
  else ⟨b.size, b.buffer ++ [angles]⟩

/-- `AngleBuffer.get_average`: `[0,0,0]` on an empty buffer, otherwise the
per-axis arithmetic mean (`np.mean(buffer, axis=0)`). -/
def AngleBuffer.get_average (b : AngleBuffer) : ℚ × ℚ × ℚ :=
  if b.buffer = [] then (0, 0, 0)
  else ((b.buffer.map fun p => p.1).sum / b.buffer.length,
        (b.buffer.map fun p => p.2.1).sum / b.buffer.length,
        (b.buffer.map fun p => p.2.2).sum / b.buffer.length)

lemma angleBuffer_add_size (b : AngleBuffer) (a : ℚ × ℚ × ℚ) :
    (b.add a).size = b.size := by
  unfold AngleBuffer.add
  split <;> rfl

lemma angleBuffer_fold_size (N : ℕ) (l : List (ℚ × ℚ × ℚ)) :
    (l.foldl AngleBuffer.add (AngleBuffer.init N)).size = N := by
  induction l using List.reverseRecOn with
  | nil => rfl
  | append_singleton t x iht => rw [List.foldl_append, List.foldl_cons, List.foldl_nil,
      angleBuffer_add_size, iht]

lemma angleBuffer_fold_fifo (N : ℕ) (pushes : List (ℚ × ℚ × ℚ)) :
    (pushes.foldl AngleBuffer.add (AngleBuffer.init N)).buffer =
      pushes.drop (pushes.length - N) := by
  induction pushes using List.reverseRecOn with
  | nil => simp [AngleBuffer.init]
  | append_singleton l a ih =>
    rw [List.foldl_append, List.foldl_cons, List.foldl_nil, AngleBuffer.add,
      ih, angleBuffer_fold_size N l]
    by_cases h : l.length < N
    · have h1 : l.length - N = 0 := by omega
      have h2 : (l ++ [a]).length - N = 0 := by simp; omega
      rw [h1, h2, List.drop_zero, List.drop_zero, if_neg (by simp; omega)]
    · push_neg at h
      rw [if_pos (by simp; omega)]
      show (l.drop (l.length - N) ++ [a]).tail = (l ++ [a]).drop ((l ++ [a]).length - N)
      rcases Nat.eq_zero_or_pos N with hN | hN
      · subst hN
        have hd0 : l.drop (l.length - 0) = [] := by
          rw [Nat.sub_zero, List.drop_length]
        rw [hd0, List.nil_append, List.tail_cons]
        have : (l ++ [a]).length - 0 = (l ++ [a]).length := Nat.sub_zero _
        rw [this, List.drop_length]
      · rcases hd : l.drop (l.length - N) with _ | ⟨x, xs⟩
        · exfalso
          have := congrArg List.length hd
          rw [List.length_drop] at this
          simp at this
          omega
        · have hxs : xs = l.drop (l.length - N + 1) := by
            have ht := List.tail_drop l (l.length - N)
            rw [hd] at ht
            simpa using ht
          have harith : (l ++ [a]).length - N = l.length - N + 1 := by simp; omega
          rw [harith, List.drop_append_of_le_length (by omega), List.cons_append,
            List.tail_cons, hxs]

/-- C4: for every capacity `N` and sequence of pushes, the buffer length never
exceeds `N`; the contents are exactly the last `min N (number of pushes)`
pushed entries in insertion order (strict FIFO eviction of the oldest);
`get_average` on the empty buffer returns `(0,0,0)`; and on a nonempty buffer
it returns the per-axis arithmetic mean of the current contents. -/
theorem angle_buffer_fifo (N : ℕ) (pushes : List (ℚ × ℚ × ℚ)) :
    (pushes.foldl AngleBuffer.add (AngleBuffer.init N)).buffer.length ≤ N ∧
    (pushes.foldl AngleBuffer.add (AngleBuffer.init N)).buffer =
      pushes.drop (pushes.length - N) ∧
    (AngleBuffer.init N).get_average = (0, 0, 0) ∧
    ((pushes.foldl AngleBuffer.add (AngleBuffer.init N)).buffer ≠ [] →
      (pushes.foldl AngleBuffer.add (AngleBuffer.init N)).get_average =
        (((pushes.foldl AngleBuffer.add (AngleBuffer.init N)).buffer.map fun p => p.1).sum /
            (pushes.foldl AngleBuffer.add (AngleBuffer.init N)).buffer.length,
         ((pushes.foldl AngleBuffer.add (AngleBuffer.init N)).buffer.map fun p => p.2.1).sum /
            (pushes.foldl AngleBuffer.add (AngleBuffer.init N)).buffer.length,
         ((pushes.foldl AngleBuffer.add (AngleBuffer.init N)).buffer.map fun p => p.2.2).sum /
            (pushes.foldl AngleBuffer.add (AngleBuffer.init N)).buffer.length)) := by
  refine ⟨?_, angleBuffer_fold_fifo N pushes, by simp [AngleBuffer.init, AngleBuffer.get_average], ?_⟩
  · rw [angleBuffer_fold_fifo N pushes]
    simp
    omega
  · intro hne
    unfold AngleBuffer.get_average
    rw [if_neg hne]

/-- Witness for C4's nonemptiness hypothesis: three pushes into a buffer of
capacity 2 keep the last two entries, and the average is their mean. -/
theorem angle_buffer_fifo_witness :
    ([((1:ℚ), (2:ℚ), (3:ℚ)), (4, 5, 6), (7, 8, 9)].foldl AngleBuffer.add
        (AngleBuffer.init 2)).get_average = (11/2, 13/2, 15/2) := by
  have h := (angle_buffer_fifo 2 [((1:ℚ), (2:ℚ), (3:ℚ)), (4, 5, 6), (7, 8, 9)]).2.2.2
  have hbuf := (angle_buffer_fifo 2 [((1:ℚ), (2:ℚ), (3:ℚ)), (4, 5, 6), (7, 8, 9)]).2.1
  rw [h (by rw [hbuf]; simp), hbuf]
  norm_num

/-! ## Calibration baseline (advanced_eye_tracker.py process_frame / calibrate_head_pose,
and the monitor main loop's initial-calibration guard) -/

/-- Baseline state of the simplified (web) tracker: `initial_pitch/yaw/roll`
collapsed into one optional triple, plus the `calibrated` flag. -/
structure CalibState where
  initial : Option (ℚ × ℚ × ℚ)
  calibrated : Bool
deriving DecidableEq

/-- Auto-calibration inside `AdvancedEyeTracker.process_frame`: on a frame with
a detected face, if `initial_pitch is None` the measured pose becomes the
baseline and `calibrated` is set; otherwise nothing changes. -/
def calibStep (s : CalibState) (measured : ℚ × ℚ × ℚ) : CalibState :=
  if s.initial = none then ⟨some measured, true⟩ else s

/-- `AdvancedEyeTracker.calibrate_head_pose`: clears the baseline back to unset. -/
def calibrate_head_pose (_s : CalibState) : CalibState := ⟨none, false⟩

/-- Baseline state of the standalone monitor (`eye_contact_monitor.py` globals). -/
structure MonitorCalib where
  initial : Option (ℚ × ℚ × ℚ)
  calibrated : Bool
deriving DecidableEq

/-- The monitor main loop's initial-calibration guard: on a face frame, the
smoothed average becomes the baseline only when none is set yet and
`frame_count > 30`. -/
def monitorCalibStep (s : MonitorCalib) (frame_count : ℕ) (avg : ℚ × ℚ × ℚ) : MonitorCalib :=
  if s.initial = none ∧ 30 < frame_count then ⟨some avg, true⟩ else s

/-- C6: the baseline is established exactly once — immediately on the first
valid detection in the simplified variant, and only after more than 30 frames
in the monitor variant — and once set it is unchanged by further frames; the
explicit recalibration command clears it to unset, and the next valid frame
then re-establishes it. -/
theorem calibration_once (s : CalibState) (sm : MonitorCalib)
    (m avg b : ℚ × ℚ × ℚ) (fc : ℕ) :
    (s.initial = some b → calibStep s m = s) ∧
    (s.initial = none → calibStep s m = ⟨some m, true⟩) ∧
    (calibrate_head_pose s).initial = none ∧
    calibStep (calibrate_head_pose s) m = ⟨some m, true⟩ ∧
    (sm.initial = some b → monitorCalibStep sm fc avg = sm) ∧
    (sm.initial = none → fc ≤ 30 → monitorCalibStep sm fc avg = sm) ∧
    (sm.initial = none → 30 < fc → monitorCalibStep sm fc avg = ⟨some avg, true⟩) := by
  refine ⟨fun h => ?_, fun h => ?_, rfl, ?_, fun h => ?_, fun h h30 => ?_, fun h h30 => ?_⟩
  · simp [calibStep, h]
  · simp [calibStep, h]
  · simp [calibStep, calibrate_head_pose]
  · simp [monitorCalibStep, h]
  · simp [monitorCalibStep, h]
    omega
  · simp [monitorCalibStep, h, h30]

/-- Witness for C6, applying the theorem at concrete states: a set baseline is
kept, an unset baseline is established by the next frame (simplified variant),
and the monitor establishes the baseline at frame 31 but not at frame 30. -/
theorem calibration_once_witness :
    calibStep ⟨some (0, 0, 0), true⟩ (1, 2, 3) = ⟨some (0, 0, 0), true⟩ ∧
    calibStep ⟨none, false⟩ (1, 2, 3) = ⟨some (1, 2, 3), true⟩ ∧
    monitorCalibStep ⟨none, false⟩ 31 (4, 5, 6) = ⟨some (4, 5, 6), true⟩ ∧
    monitorCalibStep ⟨none, false⟩ 30 (4, 5, 6) = ⟨none, false⟩ :=
  ⟨(calibration_once ⟨some (0, 0, 0), true⟩ ⟨none, false⟩ (1, 2, 3) (4, 5, 6) (0, 0, 0) 31).1 rfl,
   (calibration_once ⟨none, false⟩ ⟨none, false⟩ (1, 2, 3) (4, 5, 6) (0, 0, 0) 31).2.1 rfl,
   (calibration_once ⟨none, false⟩ ⟨none, false⟩ (1, 2, 3) (4, 5, 6) (0, 0, 0) 31).2.2.2.2.2.2
     rfl (by norm_num),
   (calibration_once ⟨none, false⟩ ⟨none, false⟩ (1, 2, 3) (4, 5, 6) (0, 0, 0) 30).2.2.2.2.2.1
     rfl (by norm_num)⟩

/-! ## Eye-contact duration accounting (eye_contact_monitor.py, main loop) -/

/-- The monitor's contact-accounting globals: `is_eye_contact`,
`eye_contact_start_time` and `total_eye_contact_time`. -/
structure ContactState where
  in_contact : Bool
  start : Option ℚ
  total : ℚ
deriving DecidableEq

/-- The edge-triggered update in the monitor's main loop: on a change of the
per-frame boolean, a rising edge records the start time, a falling edge adds
`now - start` to the cumulative total (when a start time exists) and flips the
flag — the code does not reset `eye_contact_start_time` there. -/
def contactStep (s : ContactState) (current : Bool) (now : ℚ) : ContactState :=
  if current ≠ s.in_contact then
    if current then ⟨true, some now, s.total⟩
    else ⟨false, s.start, match s.start with
      | some u => s.total + (now - u)
      | none => s.total⟩
  else s

/-- C7 counterexample: after a rising edge at time 1 and a falling edge at
time 3, the duration 2 is added to the cumulative total but the start time is
still `some 1` — it is not cleared, contrary to the claim. -/
theorem contact_start_not_cleared :
    (contactStep (contactStep ⟨false, none, 0⟩ true 1) false 3).start ≠ none ∧
    (contactStep (contactStep ⟨false, none, 0⟩ true 1) false 3).total = 2 :=
  ⟨by simp [contactStep], by norm_num [contactStep]⟩

/-- C7 (amended): contact accounting is edge-triggered — a rising edge records
the start time, a falling edge adds `now - start` to the cumulative seconds and
leaves the start time unchanged (it is only overwritten by the next rising
edge), no-edge frames change nothing; the cumulative total never decreases when
the clock is monotone, and it changes only on a falling edge. -/
theorem contact_edge_triggered (s : ContactState) (current : Bool) (now u : ℚ) :
    (s.in_contact = false → current = true →
      contactStep s current now = ⟨true, some now, s.total⟩) ∧
    (s.in_contact = true → current = false →
      (contactStep s current now).in_contact = false ∧
      (contactStep s current now).start = s.start ∧
      (contactStep s current now).total =
        (match s.start with | some u => s.total + (now - u) | none => s.total)) ∧
    (current = s.in_contact → contactStep s current now = s) ∧
    (s.in_contact = true → current = false → s.start = some u → u ≤ now →
      s.total ≤ (contactStep s current now).total) ∧
    ((contactStep s current now).total ≠ s.total → s.in_contact = true ∧ current = false) := by
  refine ⟨fun h1 h2 => ?_, fun h1 h2 => ?_, fun h => ?_, fun h1 h2 h3 h4 => ?_, fun h => ?_⟩
  · simp [contactStep, h1, h2]
  · simp [contactStep, h1, h2]
  · simp [contactStep, h]
  · simp [contactStep, h1, h2, h3]
    linarith
  · by_cases hc : current = s.in_contact
    · exfalso; exact h (by simp [contactStep, hc])
    · cases hcur : current
      · cases hs : s.in_contact
        · exact absurd (hcur.trans hs.symm) hc
        · exact ⟨rfl, rfl⟩
      · exfalso
        apply h
        simp [contactStep, hcur, hcur ▸ hc]

/-- Witness for C7: rising edge at time 1 then falling edge at time 3, with
every hypothesis of the amended theorem discharged concretely. -/
theorem contact_edge_triggered_witness :
    contactStep ⟨false, none, 0⟩ true 1 = ⟨true, some 1, 0⟩ ∧
    ((contactStep ⟨true, some 1, 0⟩ false 3).in_contact = false ∧
      (contactStep ⟨true, some 1, 0⟩ false 3).start = some 1 ∧
      (contactStep ⟨true, some 1, 0⟩ false 3).total = 0 + (3 - 1)) ∧
    (0 : ℚ) ≤ (contactStep ⟨true, some 1, 0⟩ false 3).total :=
  ⟨(contact_edge_triggered ⟨false, none, 0⟩ true 1 1).1 rfl rfl,
   (contact_edge_triggered ⟨true, some 1, 0⟩ false 3 1).2.1 rfl rfl,
   (contact_edge_triggered ⟨true, some 1, 0⟩ false 3 1).2.2.2.1 rfl rfl rfl (by norm_num)⟩

/-! ## Eye-contact classifiers (eye_contact_monitor.detect_eye_contact and
advanced_eye_tracker.AdvancedEyeTracker.detect_eye_contact_simple) -/

/-- `EYE_CONTACT_THRESHOLD_YAW = 30` in `eye_contact_monitor.py`. -/
def EYE_CONTACT_THRESHOLD_YAW : ℚ := 30

/-- `EYE_CONTACT_THRESHOLD_PITCH = 30` in `eye_contact_monitor.py`. -/
def EYE_CONTACT_THRESHOLD_PITCH : ℚ := 30

/-- `GAZE_THRESHOLD = 0.5` in `eye_contact_monitor.py`. -/
def GAZE_THRESHOLD : ℚ := 1/2

/-- The monitor's classifier `detect_eye_contact`: head-forward and
gaze-forward threshold tests, with the gaze term ignored entirely when either
gaze component exceeds the sanity bound `2`. -/
def detect_eye_contact (head_pitch head_yaw _head_roll gaze_x gaze_y : ℚ) : Bool :=
  let head_forward := decide (|head_yaw| < EYE_CONTACT_THRESHOLD_YAW ∧
    |head_pitch| < EYE_CONTACT_THRESHOLD_PITCH)
  let gaze_forward := decide (|gaze_x| < GAZE_THRESHOLD ∧ |gaze_y| < GAZE_THRESHOLD)
  if 2 < |gaze_x| ∨ 2 < |gaze_y| then head_forward
  else head_forward && gaze_forward

/-- `self.EYE_CONTACT_THRESHOLD_YAW = 45` in `AdvancedEyeTracker`. -/
def SIMPLE_THRESHOLD_YAW : ℚ := 45

/-- `self.EYE_CONTACT_THRESHOLD_PITCH = 45` in `AdvancedEyeTracker`. -/
def SIMPLE_THRESHOLD_PITCH : ℚ := 45

/-- `self.GAZE_THRESHOLD = 0.8` in `AdvancedEyeTracker`. -/
def SIMPLE_GAZE_THRESHOLD : ℚ := 4/5

/-- The simplified (web) classifier `detect_eye_contact_simple`: plain
conjunction of head-forward and gaze-forward, with no gaze sanity branch. -/
def detect_eye_contact_simple (head_pitch head_yaw gaze_x gaze_y : ℚ) : Bool :=
  decide (|head_yaw| < SIMPLE_THRESHOLD_YAW ∧ |head_pitch| < SIMPLE_THRESHOLD_PITCH) &&
  decide (|gaze_x| < SIMPLE_GAZE_THRESHOLD ∧ |gaze_y| < SIMPLE_GAZE_THRESHOLD)

/-- C8 counterexample: at head pose `(0,0)` (head-pose condition holds) and
corrupted gaze `gaze_x = 3 > 2`, the simplified classifier returns `false` —
the corrupted gaze does force a "looking away" classification there, so the
claim is false for `detect_eye_contact_simple`. -/
theorem simple_classifier_no_sanity_branch :
    detect_eye_contact_simple 0 0 3 0 = false ∧
    (|(0:ℚ)| < SIMPLE_THRESHOLD_YAW ∧ |(0:ℚ)| < SIMPLE_THRESHOLD_PITCH) ∧ 2 < |(3:ℚ)| := by
  norm_num [detect_eye_contact_simple, SIMPLE_THRESHOLD_YAW, SIMPLE_THRESHOLD_PITCH,
    SIMPLE_GAZE_THRESHOLD]

/-- C8 (amended): when `|gaze_x| > 2` or `|gaze_y| > 2`, the monitor variant's
classifier ignores the gaze term and returns the head-pose condition alone,
while the simplified variant — which has no sanity branch — returns `false`
regardless of head pose. -/
theorem gaze_sanity_branch (p y r gx gy : ℚ) (h : 2 < |gx| ∨ 2 < |gy|) :
    detect_eye_contact p y r gx gy =
      decide (|y| < EYE_CONTACT_THRESHOLD_YAW ∧ |p| < EYE_CONTACT_THRESHOLD_PITCH) ∧
    detect_eye_contact_simple p y gx gy = false := by
  constructor
  · simp only [detect_eye_contact, if_pos h]
  · have hng : ¬(|gx| < SIMPLE_GAZE_THRESHOLD ∧ |gy| < SIMPLE_GAZE_THRESHOLD) := by
      rcases h with h | h
      · rintro ⟨h1, -⟩
        rw [SIMPLE_GAZE_THRESHOLD] at h1
        linarith
      · rintro ⟨-, h2⟩
        rw [SIMPLE_GAZE_THRESHOLD] at h2
        linarith
    simp [detect_eye_contact_simple, hng]

/-- Witness for C8 at head pose `0`, roll `0`, gaze `(3, 0)`. -/
theorem gaze_sanity_branch_witness :
    detect_eye_contact 0 0 0 3 0 =
      decide (|(0:ℚ)| < EYE_CONTACT_THRESHOLD_YAW ∧ |(0:ℚ)| < EYE_CONTACT_THRESHOLD_PITCH) ∧
    detect_eye_contact_simple 0 0 3 0 = false :=
  gaze_sanity_branch 0 0 0 3 0 (by norm_num)

/-! ## Gaze computation (eye_contact_monitor.py, calculate_gaze_direction) -/

/-- The landmark values `calculate_gaze_direction` actually reads: the two eye
corners (landmarks 33 and 263), the chin and nose-tip y coordinates
(landmarks 152 and 4), and the two iris centers. -/
structure GazeInput where
  left_corner : ℚ × ℚ
  right_corner : ℚ × ℚ
  chin_y : ℚ
  nose_y : ℚ
  left_center : ℚ × ℚ
  right_center : ℚ × ℚ

/-- Embedding of `calculate_gaze_direction`: offset of the mean iris center
from the eye-corner midpoint, normalized by half the face width/height,
clamped into `[-1, 1]` per component; `(0, 0)` when the face width or height
is zero. -/
def calculate_gaze_direction (i : GazeInput) : ℚ × ℚ :=
  if |i.right_corner.1 - i.left_corner.1| = 0 ∨ |i.chin_y - i.nose_y| = 0 then (0, 0)
  else
    (max (-1) (min 1 (((i.left_center.1 + i.right_center.1) / 2 -
        (i.left_corner.1 + i.right_corner.1) / 2) / (|i.right_corner.1 - i.left_corner.1| / 2))),
     max (-1) (min 1 (((i.left_center.2 + i.right_center.2) / 2 -
        (i.left_corner.2 + i.right_corner.2) / 2) / (|i.chin_y - i.nose_y| / 2))))

lemma clamp_unit_bounds (x : ℚ) : -1 ≤ max (-1) (min 1 x) ∧ max (-1) (min 1 x) ≤ 1 :=
  ⟨le_max_left _ _, max_le (by norm_num) (min_le_left _ _)⟩

/-- C10: every gaze vector produced by `calculate_gaze_direction` has both
components in `[-1, 1]` (and equals `(0,0)` on zero face width/height), so its
magnitude can never exceed the classifier's sanity bound `2`, and `detect_eye_contact`
applied to such a vector always takes the ordinary head-and-gaze branch. -/
theorem gaze_direction_clamped (i : GazeInput) (p y r : ℚ) :
    -1 ≤ (calculate_gaze_direction i).1 ∧ (calculate_gaze_direction i).1 ≤ 1 ∧
    -1 ≤ (calculate_gaze_direction i).2 ∧ (calculate_gaze_direction i).2 ≤ 1 ∧
    (|i.right_corner.1 - i.left_corner.1| = 0 ∨ |i.chin_y - i.nose_y| = 0 →
      calculate_gaze_direction i = (0, 0)) ∧
    ¬(2 < |(calculate_gaze_direction i).1| ∨ 2 < |(calculate_gaze_direction i).2|) ∧
    detect_eye_contact p y r (calculate_gaze_direction i).1 (calculate_gaze_direction i).2 =
      (decide (|y| < EYE_CONTACT_THRESHOLD_YAW ∧ |p| < EYE_CONTACT_THRESHOLD_PITCH) &&
       decide (|(calculate_gaze_direction i).1| < GAZE_THRESHOLD ∧
         |(calculate_gaze_direction i).2| < GAZE_THRESHOLD)) := by
  have hbounds : -1 ≤ (calculate_gaze_direction i).1 ∧ (calculate_gaze_direction i).1 ≤ 1 ∧
      -1 ≤ (calculate_gaze_direction i).2 ∧ (calculate_gaze_direction i).2 ≤ 1 := by
    rw [calculate_gaze_direction]
    by_cases hz : |i.right_corner.1 - i.left_corner.1| = 0 ∨ |i.chin_y - i.nose_y| = 0
    · rw [if_pos hz]
      norm_num
    · rw [if_neg hz]
      exact ⟨(clamp_unit_bounds _).1, (clamp_unit_bounds _).2,
        (clamp_unit_bounds _).1, (clamp_unit_bounds _).2⟩
  obtain ⟨h1, h2, h3, h4⟩ := hbounds
  have hsane : ¬(2 < |(calculate_gaze_direction i).1| ∨ 2 < |(calculate_gaze_direction i).2|) := by
    rintro (h | h)
    · have := abs_le.mpr ⟨h1, h2⟩; linarith
    · have := abs_le.mpr ⟨h3, h4⟩; linarith
  refine ⟨h1, h2, h3, h4, fun hz => ?_, hsane, ?_⟩
  · rw [calculate_gaze_direction, if_pos hz]
  · rw [detect_eye_contact, if_neg hsane]

/-- Witness for C10: a degenerate input with zero face width yields `(0, 0)`,
and the classifier at that gaze takes the ordinary branch. -/
theorem gaze_direction_clamped_witness :
    calculate_gaze_direction ⟨(0, 0), (0, 5), 7, 0, (1, 1), (2, 2)⟩ = (0, 0) ∧
    (calculate_gaze_direction ⟨(0, 0), (0, 5), 7, 0, (1, 1), (2, 2)⟩).1 ≤ 1 :=
  ⟨(gaze_direction_clamped ⟨(0, 0), (0, 5), 7, 0, (1, 1), (2, 2)⟩ 0 0 0).2.2.2.2.1
      (Or.inl (by norm_num)),
   (gaze_direction_clamped ⟨(0, 0), (0, 5), 7, 0, (1, 1), (2, 2)⟩ 0 0 0).2.1⟩

/-! ## Swipe detection and cooldown (src/backend/ModelGestures.py) -/

/-- `HISTORY_SECONDS = 0.40`. -/
def HISTORY_SECONDS : ℚ := 2/5

/-- `SWIPE_MIN_DELTA = 0.20` (fraction of frame width). -/
def SWIPE_MIN_DELTA : ℚ := 1/5

/-- `SWIPE_MIN_SPEED = 0.80` (fraction of frame width per second). -/
def SWIPE_MIN_SPEED : ℚ := 4/5

/-- `COOLDOWN_SECS = 1.50`. -/
def COOLDOWN_SECS : ℚ := 3/2

/-- A recognized swipe direction. -/
inductive Swipe
| left
| right
deriving DecidableEq

/-- Embedding of `detect_swipe_fallback(x_hist)`: needs at least 3 samples;
reads the oldest `(t0, x0)` and newest `(t1, x1)` entries of the rolling
window, guards `dt = max(1e-6, t1 - t0)`, and classifies a swipe exactly when
`|delta| >= SWIPE_MIN_DELTA` and `|delta|/dt >= SWIPE_MIN_SPEED`. -/
def detect_swipe_fallback (x_hist : List (ℚ × ℚ)) : Option Swipe :=
  if x_hist.length < 3 then none
  else
    match x_hist.head?, x_hist.getLast? with
    | some (t0, x0), some (t1, x1) =>
      if SWIPE_MIN_DELTA ≤ |x1 - x0| ∧
          SWIPE_MIN_SPEED ≤ |x1 - x0| / max (1/1000000) (t1 - t0) then
        if 0 < x1 - x0 then some Swipe.right else some Swipe.left
      else none
    | _, _ => none

/-- The gesture labels the slide-navigation block distinguishes. -/
inductive GLabel
| swipeLeftLabel
| swipeRightLabel
| otherLabel
deriving DecidableEq

/-- A slide-navigation key press (`pyautogui.press("right"/"left")`). -/
inductive SlideAction
| next
| prev
deriving DecidableEq

/-- The loop state relevant to slide navigation: `last_action` and the rolling
`x_history` deque of `(timestamp, index-fingertip x)` samples. -/
structure GestureState where
  last_action : ℚ
  x_history : List (ℚ × ℚ)
deriving DecidableEq

/-- One frame of input to the slide-navigation block. -/
structure GestureInput where
  now : ℚ
  top_label : Option GLabel
  landmark_x : Option ℚ
  control_on : Bool

/-- The slide-navigation block of `ModelGestures.main` (with
`PREFER_MODEL_SWIPES = True`): guarded by `control_on` and the cooldown;
model-provided `Swipe_*` labels fire directly; otherwise, with hand landmarks
present, the fingertip sample is appended, entries older than
`now - HISTORY_SECONDS` are dropped from the front, and the fallback detector
decides; any recognized action records `last_action = now`. -/
def slideStep (s : GestureState) (inp : GestureInput) : GestureState × Option SlideAction :=
  if inp.control_on = true ∧ COOLDOWN_SECS < inp.now - s.last_action then
    if inp.top_label = some GLabel.swipeLeftLabel then
      (⟨inp.now, s.x_history⟩, some SlideAction.next)
    else if inp.top_label = some GLabel.swipeRightLabel then
      (⟨inp.now, s.x_history⟩, some SlideAction.prev)
    else
      match inp.landmark_x with
      | none => (s, none)
      | some x =>
        match detect_swipe_fallback
            ((s.x_history ++ [(inp.now, x)]).dropWhile fun p => p.1 < inp.now - HISTORY_SECONDS) with
        | some Swipe.left =>
          (⟨inp.now, (s.x_history ++ [(inp.now, x)]).dropWhile fun p => p.1 < inp.now - HISTORY_SECONDS⟩,
            some SlideAction.next)
        | some Swipe.right =>
          (⟨inp.now, (s.x_history ++ [(inp.now, x)]).dropWhile fun p => p.1 < inp.now - HISTORY_SECONDS⟩,
            some SlideAction.prev)
        | none =>
          (⟨s.last_action, (s.x_history ++ [(inp.now, x)]).dropWhile fun p => p.1 < inp.now - HISTORY_SECONDS⟩,
            none)
  else (s, none)

/-- C9: the fallback detector classifies a swipe only when both the
displacement across the rolling window and the speed reach the configured
minimums (`0.20` frame-widths, `0.80` frame-widths/second); within the
`1.5`-second cooldown after the last recognized action the slide block emits
nothing and changes nothing; and any emitted action re-arms the cooldown by
recording `last_action = now`. -/
theorem swipe_thresholds_and_cooldown (hist : List (ℚ × ℚ)) (sw : Swipe)
    (s : GestureState) (inp : GestureInput) :
    (detect_swipe_fallback hist = some sw →
      ∃ t0 x0 t1 x1, hist.head? = some (t0, x0) ∧ hist.getLast? = some (t1, x1) ∧
        SWIPE_MIN_DELTA ≤ |x1 - x0| ∧
        SWIPE_MIN_SPEED ≤ |x1 - x0| / max (1/1000000) (t1 - t0)) ∧
    (inp.now - s.last_action ≤ COOLDOWN_SECS →
      (slideStep s inp).2 = none ∧ (slideStep s inp).1 = s) ∧
    (∀ s' a, slideStep s inp = (s', some a) → s'.last_action = inp.now) := by
  refine ⟨fun h => ?_, fun h => ?_, fun s' a h => ?_⟩
  · rw [detect_swipe_fallback] at h
    by_cases hlen : hist.length < 3
    · rw [if_pos hlen] at h
      exact absurd h (by simp)
    · rw [if_neg hlen] at h
      rcases hh : hist.head? with _ | ⟨t0, x0⟩ <;> rcases hl : hist.getLast? with _ | ⟨t1, x1⟩ <;>
        rw [hh, hl] at h
      · simp at h
      · simp at h
      · simp at h
      · have h' : (if SWIPE_MIN_DELTA ≤ |x1 - x0| ∧
              SWIPE_MIN_SPEED ≤ |x1 - x0| / max (1/1000000) (t1 - t0) then
            (if 0 < x1 - x0 then some Swipe.right else some Swipe.left) else none) = some sw := h
        by_cases hcond : SWIPE_MIN_DELTA ≤ |x1 - x0| ∧
            SWIPE_MIN_SPEED ≤ |x1 - x0| / max (1/1000000) (t1 - t0)
        · exact ⟨t0, x0, t1, x1, rfl, rfl, hcond.1, hcond.2⟩
        · rw [if_neg hcond] at h'
          exact absurd h' (by simp)
  · have hguard : ¬(inp.control_on = true ∧ COOLDOWN_SECS < inp.now - s.last_action) := by
      rintro ⟨-, hlt⟩
      linarith
    rw [slideStep, if_neg hguard]
    exact ⟨rfl, rfl⟩
  · rw [slideStep] at h
    split at h
    · split at h
      · exact (congrArg (fun q => q.1.last_action) h).symm
      · split at h
        · exact (congrArg (fun q => q.1.last_action) h).symm
        · split at h
          · simp [Prod.ext_iff] at h
          · split at h
            · exact (congrArg (fun q => q.1.last_action) h).symm
            · exact (congrArg (fun q => q.1.last_action) h).symm
            · simp [Prod.ext_iff] at h
    · simp [Prod.ext_iff] at h

/-- Witness for C9: a concrete window of three samples moving `0.3`
frame-widths rightward in `0.2` seconds is detected as a swipe and satisfies
both minimums; a step `1` second after the last action (inside the cooldown)
emits nothing and leaves the state unchanged; and a model-label swipe outside
the cooldown records `last_action = now`. -/
theorem swipe_thresholds_and_cooldown_witness :
    (∃ t0 x0 t1 x1,
      ([((0:ℚ), (0:ℚ)), (1/10, 1/10), (1/5, 3/10)] : List (ℚ × ℚ)).head? = some (t0, x0) ∧
      ([((0:ℚ), (0:ℚ)), (1/10, 1/10), (1/5, 3/10)] : List (ℚ × ℚ)).getLast? = some (t1, x1) ∧
      SWIPE_MIN_DELTA ≤ |x1 - x0| ∧
      SWIPE_MIN_SPEED ≤ |x1 - x0| / max (1/1000000) (t1 - t0)) ∧
    ((slideStep ⟨0, []⟩ ⟨1, none, none, true⟩).2 = none ∧
      (slideStep ⟨0, []⟩ ⟨1, none, none, true⟩).1 = ⟨0, []⟩) ∧
    (⟨10, []⟩ : GestureState).last_action = (10 : ℚ) :=
  ⟨(swipe_thresholds_and_cooldown [((0:ℚ), (0:ℚ)), (1/10, 1/10), (1/5, 3/10)] Swipe.right
      ⟨0, []⟩ ⟨1, none, none, true⟩).1
      (by norm_num [detect_swipe_fallback, SWIPE_MIN_DELTA, SWIPE_MIN_SPEED, abs_of_nonneg]),
   (swipe_thresholds_and_cooldown [] Swipe.right ⟨0, []⟩ ⟨1, none, none, true⟩).2.1
      (by norm_num [COOLDOWN_SECS]),
   (swipe_thresholds_and_cooldown [] Swipe.right ⟨0, []⟩
      ⟨10, some GLabel.swipeLeftLabel, none, true⟩).2.2 ⟨10, []⟩ SlideAction.next
      (by rw [slideStep, if_pos ⟨rfl, by norm_num [COOLDOWN_SECS]⟩, if_pos rfl])⟩

end Speak
